import Mathlib

/-!
Verification of the rajant-api BCAPI client against its specification.

The package ships two copies of the packet framer: one in
`rajant_api/helper_functions.py` (namespace `HelperFunctions` below) and one
in `rajant_api/__init__.py` (namespace `RajantApi` below).  Byte strings are
modelled as `List Nat` (each element a byte value), Python `str` values as
lists of Unicode code points, and fallible Python functions as
`Except PyErr`-valued Lean functions.  The zlib library is external to the
repository; it is modelled by a `Zlib` structure bundling the four entry
points the code uses (`compress(data)`, `compress(data, wbits=-15)`,
`decompress(data)`, `decompress(data, -15)`), and theorems assume only the
documented contracts of those entry points (round-trip, container layout).
-/

/-- Python exception values distinguished by the code paths modelled here. -/
inductive PyErr where
  | valueError (msg : String)
  | keyError
  | typeError
  | structError
  | zlibError
  | unicodeEncodeError
  | osError (code : Nat)
  deriving DecidableEq, Repr

/-- Model of `struct.pack(">i", n)` for `0 ≤ n`: the four big-endian bytes of
a 32-bit value.  `struct.pack` itself raises for `n ≥ 2^31`; callers below
guard with that bound. -/
def toBE4 (n : Nat) : List Nat :=
  [n / 2 ^ 24 % 256, n / 2 ^ 16 % 256, n / 2 ^ 8 % 256, n % 256]

/-- The four zlib entry points used by the repository.  `compressZlib` /
`decompressZlib` are `zlib.compress(data)` / `zlib.decompress(data)` with the
default `wbits = 15` (zlib-container format); `compressRaw` /
`decompressRaw` are the `wbits = -15` variants (headerless raw-deflate
stream).  Decompression returns `none` where zlib raises `zlib.error`. -/
structure Zlib where
  compressZlib : List Nat → List Nat
  decompressZlib : List Nat → Option (List Nat)
  compressRaw : List Nat → List Nat
  decompressRaw : List Nat → Option (List Nat)

namespace HelperFunctions

/-- `pack_data(data, gzip)` from `rajant_api/helper_functions.py`: optionally
compress with `zlib.compress(data)` (zlib-container format), then prepend the
8-byte header `pack(">ibbbb", len(data), 2 if gzip else 0, 0, 0, 0)`.
`struct.pack` raises `struct.error` when the length exceeds `2^31 - 1`. -/
def pack_data (z : Zlib) (data : List Nat) (gzip : Bool) : Except PyErr (List Nat) :=
  let d := if gzip then z.compressZlib data else data
  if d.length < 2 ^ 31 then
    .ok (toBE4 d.length ++ (if gzip then 2 else 0) :: 0 :: 0 :: 0 :: d)
  else
    .error .structError

/-- `unpack_data(packet)` from `rajant_api/helper_functions.py`: rejects
inputs shorter than 8 bytes, reads the compression flag from the 5th byte,
decompresses with `zlib.decompress(data)` when the flag is 2, rejects any
flag other than 0 or 2, and otherwise returns the payload unchanged.  (With
at least 8 bytes available, `unpack(">ibbbb", packet[:8])` always succeeds,
so the `struct_error` branch of the source is unreachable.) -/
def unpack_data (z : Zlib) (packet : List Nat) : Except PyErr (List Nat) :=
  if packet.length < 8 then
    .error (.valueError "Input must be at least 8 bytes long.")
  else
    let flag := packet.getD 4 0
    let data := packet.drop 8
    if flag = 2 then
      match z.decompressZlib data with
      | some d => .ok d
      | none => .error (.valueError "Failed to decompress data")
    else if flag ≠ 0 then
      .error (.valueError "Unknown compression flag")
    else
      .ok data

end HelperFunctions

namespace RajantApi

/-- `pack_data(data, gzip)` from `rajant_api/__init__.py`: optionally
compress with `zlib.compress(data, wbits=-15)` (raw deflate), then prepend
the same 8-byte header. -/
def pack_data (z : Zlib) (data : List Nat) (gzip : Bool) : Except PyErr (List Nat) :=
  let d := if gzip then z.compressRaw data else data
  if d.length < 2 ^ 31 then
    .ok (toBE4 d.length ++ (if gzip then 2 else 0) :: 0 :: 0 :: 0 :: d)
  else
    .error .structError

/-- `unpack_data(packet)` from `rajant_api/__init__.py`: `unpack(">ibbbb",
packet[:8])` raises `struct.error` (uncaught) when fewer than 8 bytes are
available; when the 5th byte is 2 the payload is decompressed with
`zlib.decompress(data, -15)` (raw deflate, `zlib.error` propagating
uncaught); any other flag value, 0 included, returns the payload
unchanged — there is no unknown-flag check in this copy. -/
def unpack_data (z : Zlib) (packet : List Nat) : Except PyErr (List Nat) :=
  if packet.length < 8 then
    .error .structError
  else
    let flag := packet.getD 4 0
    let data := packet.drop 8
    if flag = 2 then
      match z.decompressRaw data with
      | some d => .ok d
      | none => .error .zlibError
    else
      .ok data

end RajantApi

/-- A concrete executable instance of the `Zlib` interface used to evaluate
the framer on closed inputs: raw compression is the identity, and the
container variant wraps the raw stream in the two-byte zlib header
`0x78 0x9c` plus a four-byte checksum trailer, mirroring the layout of the
real zlib container format. -/
def zToy : Zlib where
  compressZlib := fun p => 120 :: 156 :: (p ++ [0, 0, 0, 1])
  decompressZlib := fun d =>
    match d with
    | 120 :: 156 :: rest =>
        if 4 ≤ rest.length then some (rest.take (rest.length - 4)) else none
    | _ => none
  compressRaw := fun p => p
  decompressRaw := fun p => some p

/-!
Session model.  `Breadcrumb` mirrors the mutable state of the Python class
of the same name in `rajant_api/__init__.py`; the external collaborators —
the ICMP reachability probe, the TLS socket, and the peer's frames — are an
oracle `World` consulted in program order.  Each operation returns its
Python result (`Except PyErr`, an uncaught exception being `.error`), the
updated session state, the remaining world, and the trace of wire events it
performed (`Ev.sent` on a completed `connection.send`, `Ev.received` on a
completed receive-and-parse).
-/

/-- A Python value stored in the `stateFilterPath` repeated field: the
schema declares a repeated string field, and `get_state_filter` passes a
whole list of strings to `append`, so both shapes must be representable. -/
inductive RVal where
  | str (s : String)
  | lst (l : List String)
  deriving DecidableEq, Repr

/-- The `auth` submessage fields the client reads or writes. -/
structure Auth where
  action : Nat := 0
  role : Nat := 0
  serial : Nat := 0
  challengeOrResponse : List Nat := []
  compressionMask : Nat := 0
  deriving DecidableEq, Repr

/-- The protobuf `BCMessage` fields the client reads or writes:
`sequenceNumber`, the `auth` submessage, `authResult.status`, the opaque
`state` snapshot, and the `stateFilterPath` repeated field. -/
structure BCMessage where
  sequenceNumber : Nat := 0
  auth : Auth := {}
  authResultStatus : Nat := 0
  state : Nat := 0
  stateFilterPath : List RVal := []
  deriving DecidableEq, Repr

/-- The mutable state of a `Breadcrumb` session object.  The password is a
Python `str`, a list of Unicode code points; the three name↔code maps are
built from the external schema at construction time. -/
structure Breadcrumb where
  host : Option String
  port : Option Nat
  role : String
  password : List Nat
  serial : Option Nat
  seq_number : Nat
  actions : List (String × Nat)
  roles : List (String × Nat)
  authenticated : Bool
  statuses : List (Nat × String)
  deriving DecidableEq, Repr

/-- `Breadcrumb.__init__`: stores the connection parameters, sets
`seq_number` to 0 and `authenticated` to `False`, and builds the
action/role/status maps from the schema. -/
def Breadcrumb.init (host : Option String) (port : Option Nat) (role : String)
    (password : List Nat) (actions roles : List (String × Nat))
    (statuses : List (Nat × String)) : Breadcrumb :=
  { host := host, port := port, role := role, password := password
    serial := none, seq_number := 0, actions := actions, roles := roles
    authenticated := false, statuses := statuses }

/-- The oracle for one run of a session: the outcome of the ICMP
reachability probe, the outcome of socket/TLS setup, and the outcomes of the
successive receives and sends on the connection, consumed in program order.
A receive outcome is the decoded message, or the exception raised anywhere
in `connection.recv` / `unpack_data` / `ParseFromString`; a send outcome is
the exception raised in `SerializeToString` / `pack_data` /
`connection.send`, if any. -/
structure World where
  reachable : Except PyErr Bool
  connectR : Except PyErr Unit
  recvs : List (Except PyErr BCMessage)
  sends : List (Except PyErr Unit)
  deriving Repr

/-- A wire event performed on the connection, carrying the message. -/
inductive Ev where
  | sent (m : BCMessage)
  | received (m : BCMessage)
  deriving DecidableEq, Repr

/-- `Breadcrumb.get_message`: receive one frame, decode and parse it, then
increment `seq_number`.  The increment happens only after a successful
parse; a failure leaves the counter untouched.  An empty oracle stream is
modelled as a socket error. -/
def Breadcrumb.get_message (s : Breadcrumb) (w : World) :
    Except PyErr BCMessage × Breadcrumb × World × List Ev :=
  match w.recvs with
  | [] => (.error (.osError 0), s, w, [])
  | r :: rest =>
    let w1 : World := { w with recvs := rest }
    match r with
    | .error e => (.error e, s, w1, [])
    | .ok m => (.ok m, { s with seq_number := s.seq_number + 1 }, w1, [.received m])

/-- `Breadcrumb.build_message`: a fresh `BCMessage` whose `sequenceNumber`
is the session's current counter. -/
def Breadcrumb.build_message (s : Breadcrumb) : BCMessage :=
  { sequenceNumber := s.seq_number }

/-- `Breadcrumb.send_message`: serialize, pack and send one message, then
increment `seq_number`.  The increment happens only after a completed send. -/
def Breadcrumb.send_message (s : Breadcrumb) (m : BCMessage) (w : World) :
    Except PyErr Unit × Breadcrumb × World × List Ev :=
  match w.sends with
  | [] => (.error (.osError 1), s, w, [])
  | r :: rest =>
    let w1 : World := { w with sends := rest }
    match r with
    | .error e => (.error e, s, w1, [])
    | .ok _ => (.ok (), { s with seq_number := s.seq_number + 1 }, w1, [.sent m])

/-- `str.encode("latin1")`: succeeds iff every code point is below 256, in
which case each code point becomes one byte.  (`bytes.decode("latin1")`, its
inverse on bytes, is the identity injection of bytes into code points.) -/
def latin1Encode (s : List Nat) : Option (List Nat) :=
  if s.all (· < 256) then some s else none

/-- `Breadcrumb.prepare_login_message`: builds a message carrying the
current sequence number, sets `auth.action` to `actions["LOGIN"]` and
`auth.role` to `roles[self.role]` (a missing key raises `KeyError`),
computes `sha384((password + challenge.decode("latin1")).encode("latin1"))`
(raising `UnicodeEncodeError` when a code point exceeds 255), stores the
digest in `auth.challengeOrResponse` and sets `auth.compressionMask` to
`0 | 2`.  The SHA-384 primitive is external and passed in as `sha384`. -/
def Breadcrumb.prepare_login_message (s : Breadcrumb)
    (sha384 : List Nat → List Nat) (init_message : BCMessage) :
    Except PyErr BCMessage :=
  let tx := s.build_message
  match s.actions.lookup "LOGIN" with
  | none => .error .keyError
  | some act =>
    match s.roles.lookup s.role with
    | none => .error .keyError
    | some rl =>
      let response_string := s.password ++ init_message.auth.challengeOrResponse
      match latin1Encode response_string with
      | none => .error .unicodeEncodeError
      | some bs =>
        .ok { tx with
              auth := { tx.auth with
                        action := act, role := rl
                        challengeOrResponse := sha384 bs
                        compressionMask := 0 ||| 2 } }

/-- `Breadcrumb.authenticate`: the `reachable()` probe runs before the
`try` block, so an exception it raises propagates; a `False` probe result
returns the current `authenticated` flag without touching the connection.
Inside the `try` block the code connects, receives the initial message,
records the serial, prepares and sends the login message, receives the
result and maps its status through `statuses`; on the mapped name
`"SUCCESS"` it sets `authenticated := true`.  Every exception inside the
`try` block is caught by the bare `except` and the current `authenticated`
value is returned, state mutations already performed being kept. -/
def Breadcrumb.authenticate (s : Breadcrumb) (sha384 : List Nat → List Nat)
    (w : World) : Except PyErr Bool × Breadcrumb × World × List Ev :=
  match w.reachable with
  | .error e => (.error e, s, w, [])
  | .ok false => (.ok s.authenticated, s, w, [])
  | .ok true =>
    match w.connectR with
    | .error _ => (.ok s.authenticated, s, w, [])
    | .ok _ =>
      match s.get_message w with
      | (.error _, s1, w1, t1) => (.ok s1.authenticated, s1, w1, t1)
      | (.ok init_message, s1, w1, t1) =>
        let s2 : Breadcrumb := { s1 with serial := some init_message.auth.serial }
        match s2.prepare_login_message sha384 init_message with
        | .error _ => (.ok s2.authenticated, s2, w1, t1)
        | .ok login =>
          match s2.send_message login w1 with
          | (.error _, s3, w2, t2) => (.ok s3.authenticated, s3, w2, t1 ++ t2)
          | (.ok _, s3, w2, t2) =>
            match s3.get_message w2 with
            | (.error _, s4, w3, t3) => (.ok s4.authenticated, s4, w3, t1 ++ t2 ++ t3)
            | (.ok result, s4, w3, t3) =>
              match s4.statuses.lookup result.authResultStatus with
              | none => (.ok s4.authenticated, s4, w3, t1 ++ t2 ++ t3)
              | some st =>
                if st = "SUCCESS" then
                  let s5 : Breadcrumb := { s4 with authenticated := true }
                  (.ok s5.authenticated, s5, w3, t1 ++ t2 ++ t3)
                else
                  (.ok s4.authenticated, s4, w3, t1 ++ t2 ++ t3)

/-- The result of a state query: the device's state snapshot, or the
Python literal `False` the code returns when the query is unavailable. -/
inductive GSResult where
  | state (v : Nat)
  | unavailable
  deriving DecidableEq, Repr

/-- `Breadcrumb.get_state`: when `reachable()` raises, the exception
propagates (the call sits in the `if` condition, outside the `try` block);
when the probe returns `False` or `authenticated` is `False`, the method
returns `False` at once without touching the connection.  Otherwise it
sends an empty state request and receives the response; any exception in
the `try` block is swallowed and `False` returned, `authenticated` being
left untouched. -/
def Breadcrumb.get_state (s : Breadcrumb) (w : World) :
    Except PyErr GSResult × Breadcrumb × World × List Ev :=
  match w.reachable with
  | .error e => (.error e, s, w, [])
  | .ok rb =>
    if rb && s.authenticated then
      let msg := s.build_message
      match s.send_message msg w with
      | (.error _, s1, w1, t1) => (.ok .unavailable, s1, w1, t1)
      | (.ok _, s1, w1, t1) =>
        match s1.get_message w1 with
        | (.error _, s2, w2, t2) => (.ok .unavailable, s2, w2, t1 ++ t2)
        | (.ok resp, s2, w2, t2) => (.ok (.state resp.state), s2, w2, t1 ++ t2)
    else
      (.ok .unavailable, s, w, [])

/-- `Breadcrumb.get_state_filter`: same precondition as `get_state`, but
the request message gets `request_state_message.stateFilterPath.append(filters)`
— a single `append` call receiving the whole `filters` list as one value —
before being sent, and the `except Exception as e: raise e` handler
re-raises every exception instead of swallowing it. -/
def Breadcrumb.get_state_filter (s : Breadcrumb) (filters : List String)
    (w : World) : Except PyErr GSResult × Breadcrumb × World × List Ev :=
  match w.reachable with
  | .error e => (.error e, s, w, [])
  | .ok rb =>
    if rb && s.authenticated then
      let msg0 := s.build_message
      let msg : BCMessage :=
        { msg0 with stateFilterPath := msg0.stateFilterPath ++ [RVal.lst filters] }
      match s.send_message msg w with
      | (.error e, s1, w1, t1) => (.error e, s1, w1, t1)
      | (.ok _, s1, w1, t1) =>
        match s1.get_message w1 with
        | (.error e, s2, w2, t2) => (.error e, s2, w2, t1 ++ t2)
        | (.ok resp, s2, w2, t2) => (.ok (.state resp.state), s2, w2, t1 ++ t2)
    else
      (.ok .unavailable, s, w, [])

/-- The first exception the connection oracle will deliver to a query that
performs one send followed by one receive, if any. -/
def firstFailure (w : World) : Option PyErr :=
  match w.sends with
  | [] => some (.osError 1)
  | .error e :: _ => some e
  | .ok _ :: _ =>
    match w.recvs with
    | [] => some (.osError 0)
    | .error e :: _ => some e
    | .ok _ :: _ => none

/-- Whether a Python call completed without raising. -/
def okB {α : Type} : Except PyErr α → Bool
  | .ok _ => true
  | .error _ => false

/-!
Concrete instances used to evaluate the model on closed inputs.
-/

/-- A session whose role is present in the role map but whose password
contains the code point 960 (the character `π`), which `encode("latin1")`
cannot represent. -/
def bcPi : Breadcrumb :=
  Breadcrumb.init (some "10.0.0.1") (some 2300) "ADMIN" [960]
    [("LOGIN", 4)] [("ADMIN", 7)] [(0, "ERROR"), (1, "SUCCESS")]

/-- A session with a Latin-1 password whose role is present in the role
map. -/
def bcOK : Breadcrumb :=
  Breadcrumb.init (some "10.0.0.1") (some 2300) "ADMIN" [97, 98]
    [("LOGIN", 4)] [("ADMIN", 7)] [(0, "ERROR"), (1, "SUCCESS")]

/-- The session `bcOK` after a successful handshake. -/
def bcAuthed : Breadcrumb := { bcOK with authenticated := true }

/-- A world whose reachability probe raises. -/
def wProbeErr : World :=
  { reachable := .error (.valueError "ping argument of wrong type")
    connectR := .ok (), recvs := [], sends := [] }

/-- A world whose reachability probe reports the host unreachable. -/
def wDown : World :=
  { reachable := .ok false, connectR := .ok (), recvs := [], sends := [] }

/-- A world where the host is reachable and one send and one receive
succeed, the response carrying state snapshot 3. -/
def wUp : World :=
  { reachable := .ok true, connectR := .ok ()
    recvs := [.ok { state := 3 }], sends := [.ok ()] }

/-- A world where the host is reachable but the first send raises a socket
error. -/
def wSendFail : World :=
  { reachable := .ok true, connectR := .ok ()
    recvs := [.ok { state := 3 }], sends := [.error (.osError 32)] }

/-!
Theorems.
-/

/-- The toy instance satisfies the documented zlib round-trip contract for
the container variant. -/
theorem zToy_zlib_roundtrip (q : List Nat) :
    zToy.decompressZlib (zToy.compressZlib q) = some q := by
  simp [zToy]

/-- The toy instance satisfies the documented zlib round-trip contract for
the raw-deflate variant. -/
theorem zToy_raw_roundtrip (q : List Nat) :
    zToy.decompressRaw (zToy.compressRaw q) = some q := rfl

/-- The toy instance satisfies the documented container layout: the
container stream is the raw-deflate stream preceded by a header starting
with byte `0x78` and followed by a trailer. -/
theorem zToy_wrap (q : List Nat) :
    ∃ b t, zToy.compressZlib q = 120 :: b :: (zToy.compressRaw q ++ t) :=
  ⟨156, [0, 0, 0, 1], rfl⟩

/-- C8: for every byte sequence `p` (of framable length), `pack_data(p,
false)` — identically in both copies of the framer — produces exactly
`len(p) + 8` bytes: the first 4 bytes are the big-endian 32-bit encoding of
`len(p)`, the 5th through 8th bytes are 0, and the rest is `p` unchanged. -/
theorem pack_uncompressed_header (z : Zlib) (p : List Nat)
    (h : p.length < 2 ^ 31) :
    ∃ l, HelperFunctions.pack_data z p false = .ok l ∧
      RajantApi.pack_data z p false = .ok l ∧
      l.length = p.length + 8 ∧
      l.take 4 = [p.length / 2 ^ 24 % 256, p.length / 2 ^ 16 % 256,
        p.length / 2 ^ 8 % 256, p.length % 256] ∧
      l.getD 4 9 = 0 ∧ l.getD 5 9 = 0 ∧ l.getD 6 9 = 0 ∧ l.getD 7 9 = 0 ∧
      l.drop 8 = p := by
  have h' : p.length < 2147483648 := by omega
  refine ⟨toBE4 p.length ++ 0 :: 0 :: 0 :: 0 :: p, ?_, ?_, ?_, ?_, ?_, ?_, ?_, ?_, ?_⟩ <;>
    simp [HelperFunctions.pack_data, RajantApi.pack_data, toBE4, h']

/-- C8 witness: the header layout evaluated at `p = [9, 9]`. -/
theorem pack_uncompressed_header_witness :
    ∃ l, HelperFunctions.pack_data zToy [9, 9] false = .ok l ∧
      RajantApi.pack_data zToy [9, 9] false = .ok l ∧
      l.length = ([9, 9] : List Nat).length + 8 ∧
      l.take 4 = [([9, 9] : List Nat).length / 2 ^ 24 % 256,
        ([9, 9] : List Nat).length / 2 ^ 16 % 256,
        ([9, 9] : List Nat).length / 2 ^ 8 % 256,
        ([9, 9] : List Nat).length % 256] ∧
      l.getD 4 9 = 0 ∧ l.getD 5 9 = 0 ∧ l.getD 6 9 = 0 ∧ l.getD 7 9 = 0 ∧
      l.drop 8 = [9, 9] :=
  pack_uncompressed_header zToy [9, 9] (by decide)

/-- C1: for every byte sequence `p` and flag `useCompression`, decoding the
frame produced by `pack_data(p, useCompression)` with the `unpack_data` of
the same module (`helper_functions.py`) gives back `p`, assuming the
documented zlib round-trip contract and framable lengths. -/
theorem framer_roundtrip (z : Zlib) (p : List Nat) (useCompression : Bool)
    (hz : ∀ q, z.decompressZlib (z.compressZlib q) = some q)
    (h1 : p.length < 2 ^ 31) (h2 : (z.compressZlib p).length < 2 ^ 31) :
    ∃ l, HelperFunctions.pack_data z p useCompression = .ok l ∧
      HelperFunctions.unpack_data z l = .ok p := by
  have h1' : p.length < 2147483648 := by omega
  have h2' : (z.compressZlib p).length < 2147483648 := by omega
  cases useCompression with
  | false =>
    refine ⟨toBE4 p.length ++ 0 :: 0 :: 0 :: 0 :: p, ?_, ?_⟩
    · simp [HelperFunctions.pack_data, h1']
    · simp [HelperFunctions.unpack_data, toBE4]
  | true =>
    refine ⟨toBE4 (z.compressZlib p).length ++ 2 :: 0 :: 0 :: 0 :: z.compressZlib p,
      ?_, ?_⟩
    · simp [HelperFunctions.pack_data, h2']
    · simp [HelperFunctions.unpack_data, toBE4, hz]

/-- C1 witness: the round-trip evaluated at `p = [1, 2, 3]` with
compression on. -/
theorem framer_roundtrip_witness :
    ∃ l, HelperFunctions.pack_data zToy [1, 2, 3] true = .ok l ∧
      HelperFunctions.unpack_data zToy l = .ok [1, 2, 3] :=
  framer_roundtrip zToy [1, 2, 3] true zToy_zlib_roundtrip (by decide) (by decide)

/-- C4 counterexample: `pack_data([5], true)` from `helper_functions.py`
produces a payload (the bytes after the 8-byte header) that is not the
raw-deflate stream — it is the zlib-container stream, which begins with the
zlib header byte `0x78` and ends with a checksum trailer. -/
theorem pack_compressed_not_raw :
    HelperFunctions.pack_data zToy [5] true =
      .ok [0, 0, 0, 7, 2, 0, 0, 0, 120, 156, 5, 0, 0, 0, 1] ∧
    ([0, 0, 0, 7, 2, 0, 0, 0, 120, 156, 5, 0, 0, 0, 1] : List Nat).drop 8 ≠
      zToy.compressRaw [5] := by
  constructor
  · simp [HelperFunctions.pack_data, zToy, toBE4]
  · decide

/-- C4 amended: `pack_data(p, true)` in `rajant_api/__init__.py` emits the
headerless raw-deflate stream as payload, while `pack_data(p, true)` in
`rajant_api/helper_functions.py` emits the zlib-container stream, whose
first payload byte is the zlib header byte `0x78`. -/
theorem pack_compressed_formats (z : Zlib) (p : List Nat)
    (h1 : (z.compressRaw p).length < 2 ^ 31)
    (h2 : (z.compressZlib p).length < 2 ^ 31)
    (hwrap : ∀ q, ∃ b t, z.compressZlib q = 120 :: b :: (z.compressRaw q ++ t)) :
    (∃ l, RajantApi.pack_data z p true = .ok l ∧ l.drop 8 = z.compressRaw p) ∧
    (∃ l, HelperFunctions.pack_data z p true = .ok l ∧
      l.drop 8 = z.compressZlib p ∧ l.getD 8 0 = 120) := by
  have h1' : (z.compressRaw p).length < 2147483648 := by omega
  have h2' : (z.compressZlib p).length < 2147483648 := by omega
  constructor
  · refine ⟨toBE4 (z.compressRaw p).length ++ 2 :: 0 :: 0 :: 0 :: z.compressRaw p,
      ?_, ?_⟩
    · simp [RajantApi.pack_data, h1']
    · simp [toBE4]
  · refine ⟨toBE4 (z.compressZlib p).length ++ 2 :: 0 :: 0 :: 0 :: z.compressZlib p,
      ?_, ?_, ?_⟩
    · simp [HelperFunctions.pack_data, h2']
    · simp [toBE4]
    · obtain ⟨b, t, hw⟩ := hwrap p
      simp [toBE4, hw]

/-- C4 witness: the two compressed payload shapes evaluated at `p = [5]`. -/
theorem pack_compressed_formats_witness :
    (∃ l, RajantApi.pack_data zToy [5] true = .ok l ∧
      l.drop 8 = zToy.compressRaw [5]) ∧
    (∃ l, HelperFunctions.pack_data zToy [5] true = .ok l ∧
      l.drop 8 = zToy.compressZlib [5] ∧ l.getD 8 0 = 120) :=
  pack_compressed_formats zToy [5] (by decide) (by decide) zToy_wrap

/-- C6 counterexample: the 8-byte packet `00 00 00 00 02 00 00 00` has a
parseable header, length 8, compression flag 2, and a remainder that
raw-deflate decompression accepts, so by the claim `unpack_data` should
succeed on it — but the code decompresses with the zlib-container variant
and fails. -/
theorem unpack_fails_on_unwrapped_raw :
    okB (HelperFunctions.unpack_data zToy [0, 0, 0, 0, 2, 0, 0, 0]) = false ∧
    ¬(([0, 0, 0, 0, 2, 0, 0, 0] : List Nat).length < 8) ∧
    ([0, 0, 0, 0, 2, 0, 0, 0] : List Nat).getD 4 0 = 2 ∧
    zToy.decompressRaw (([0, 0, 0, 0, 2, 0, 0, 0] : List Nat).drop 8) =
      some [] := by
  refine ⟨?_, by decide, by decide, by decide⟩
  simp [HelperFunctions.unpack_data, zToy, okB]

/-- C6 amended: `unpack_data` from `helper_functions.py` fails exactly when
the input is shorter than 8 bytes, or the 5th byte is 2 and
zlib-container-format decompression of the remainder fails, or the 5th byte
is neither 0 nor 2; it succeeds otherwise. -/
theorem unpack_error_characterisation (z : Zlib) (packet : List Nat) :
    okB (HelperFunctions.unpack_data z packet) = false ↔
      (packet.length < 8 ∨
       (packet.getD 4 0 = 2 ∧ z.decompressZlib (packet.drop 8) = none) ∨
       (packet.getD 4 0 ≠ 0 ∧ packet.getD 4 0 ≠ 2)) := by
  unfold HelperFunctions.unpack_data
  simp only [List.getD_eq_getElem?_getD]
  by_cases hlen : packet.length < 8
  · simp [hlen, okB]
  · by_cases hflag : packet[4]?.getD 0 = 2
    · cases hdec : z.decompressZlib (packet.drop 8) <;>
        simp [hlen, hflag, hdec, okB]
    · by_cases hzero : packet[4]?.getD 0 = 0 <;>
        simp [hlen, hflag, hzero, okB]

/-- C10 counterexample: on the 8-byte frame `00 00 00 00 01 00 00 00`
(compression flag 1), `unpack_data` from `helper_functions.py` raises while
`unpack_data` from `__init__.py` silently returns the empty payload, so the
two copies do not compute the same function. -/
theorem framer_copies_disagree :
    okB (HelperFunctions.unpack_data zToy [0, 0, 0, 0, 1, 0, 0, 0]) = false ∧
    RajantApi.unpack_data zToy [0, 0, 0, 0, 1, 0, 0, 0] = .ok [] := by
  constructor
  · simp [HelperFunctions.unpack_data, okB]
  · simp [RajantApi.unpack_data, zToy]

/-- C10 amended: the two copies agree on uncompressed packing, both fail on
frames shorter than 8 bytes, and agree on frames whose compression flag is
0; they diverge on every other flag value — `helper_functions.py` rejects
it while `__init__.py` silently returns the payload — and on the flag-2
path, where `helper_functions.py` decompresses in zlib-container format and
`__init__.py` in raw-deflate format. -/
theorem framer_copies_comparison (z : Zlib) (p frame : List Nat) :
    HelperFunctions.pack_data z p false = RajantApi.pack_data z p false ∧
    (frame.length < 8 →
      okB (HelperFunctions.unpack_data z frame) = false ∧
      okB (RajantApi.unpack_data z frame) = false) ∧
    (8 ≤ frame.length → frame.getD 4 0 = 0 →
      HelperFunctions.unpack_data z frame = .ok (frame.drop 8) ∧
      RajantApi.unpack_data z frame = .ok (frame.drop 8)) ∧
    (8 ≤ frame.length → frame.getD 4 0 ≠ 0 → frame.getD 4 0 ≠ 2 →
      okB (HelperFunctions.unpack_data z frame) = false ∧
      RajantApi.unpack_data z frame = .ok (frame.drop 8)) ∧
    (8 ≤ frame.length → frame.getD 4 0 = 2 →
      HelperFunctions.unpack_data z frame =
        (match z.decompressZlib (frame.drop 8) with
         | some d => .ok d
         | none => .error (.valueError "Failed to decompress data")) ∧
      RajantApi.unpack_data z frame =
        (match z.decompressRaw (frame.drop 8) with
         | some d => .ok d
         | none => .error .zlibError)) := by
  refine ⟨rfl, ?_, ?_, ?_, ?_⟩
  · intro hlen
    simp [HelperFunctions.unpack_data, RajantApi.unpack_data, hlen, okB]
  · intro hlen hflag
    rw [List.getD_eq_getElem?_getD] at hflag
    have hlen' : ¬frame.length < 8 := by omega
    constructor <;>
      simp [HelperFunctions.unpack_data, RajantApi.unpack_data, hlen', hflag]
  · intro hlen hflag0 hflag2
    rw [List.getD_eq_getElem?_getD] at hflag0 hflag2
    have hlen' : ¬frame.length < 8 := by omega
    constructor <;>
      simp [HelperFunctions.unpack_data, RajantApi.unpack_data, hlen', hflag0,
        hflag2, okB]
  · intro hlen hflag
    rw [List.getD_eq_getElem?_getD] at hflag
    have hlen' : ¬frame.length < 8 := by omega
    constructor <;>
      simp [HelperFunctions.unpack_data, RajantApi.unpack_data, hlen', hflag]

/-- C10 witness: the agreement on a flag-0 frame, evaluated at the frame
`00 00 00 00 00 00 00 00 63`. -/
theorem framer_copies_comparison_witness :
    HelperFunctions.unpack_data zToy [0, 0, 0, 0, 0, 0, 0, 0, 99] = .ok [99] ∧
    RajantApi.unpack_data zToy [0, 0, 0, 0, 0, 0, 0, 0, 99] = .ok [99] :=
  (framer_copies_comparison zToy [] [0, 0, 0, 0, 0, 0, 0, 0, 99]).2.2.1
    (by decide) (by decide)

/-- Structural facts about one `send_message` call: the sequence counter
advances by exactly the number of wire events performed (one on a completed
send, zero on a failure), and no other session field changes. -/
theorem send_message_spec (s : Breadcrumb) (m : BCMessage) (w : World) :
    (s.send_message m w).2.1.seq_number =
      s.seq_number + (s.send_message m w).2.2.2.length ∧
    (s.send_message m w).2.1.authenticated = s.authenticated ∧
    (s.send_message m w).2.1.serial = s.serial ∧
    (okB (s.send_message m w).1 = true ↔
      (s.send_message m w).2.2.2.length = 1) := by
  cases hs : w.sends with
  | nil => simp [Breadcrumb.send_message, hs, okB]
  | cons r rest => cases r <;> simp [Breadcrumb.send_message, hs, okB]

/-- Structural facts about one `get_message` call: the sequence counter
advances by exactly the number of wire events performed (one on a completed
receive-and-parse, zero on a failure), and no other session field changes. -/
theorem get_message_spec (s : Breadcrumb) (w : World) :
    (s.get_message w).2.1.seq_number =
      s.seq_number + (s.get_message w).2.2.2.length ∧
    (s.get_message w).2.1.authenticated = s.authenticated ∧
    (s.get_message w).2.1.serial = s.serial ∧
    (okB (s.get_message w).1 = true ↔ (s.get_message w).2.2.2.length = 1) := by
  cases hr : w.recvs with
  | nil => simp [Breadcrumb.get_message, hr, okB]
  | cons r rest => cases r <;> simp [Breadcrumb.get_message, hr, okB]

/-- Structural facts about one `authenticate` call: the sequence counter
advances by exactly the number of wire events performed; when the
reachability probe returns (rather than raises) the method returns `.ok`
with the final value of the `authenticated` flag; and when the probe raises
the exception propagates with nothing consumed. -/
theorem authenticate_anatomy (s : Breadcrumb) (sha : List Nat → List Nat)
    (w : World) :
    (s.authenticate sha w).2.1.seq_number =
      s.seq_number + (s.authenticate sha w).2.2.2.length ∧
    (∀ b, w.reachable = .ok b →
      (s.authenticate sha w).1 = .ok (s.authenticate sha w).2.1.authenticated) ∧
    (∀ e, w.reachable = .error e → s.authenticate sha w = (.error e, s, w, [])) := by
  rcases w with ⟨wr, wc, wrecvs, wsends⟩
  cases wr with
  | error e => simp [Breadcrumb.authenticate]
  | ok b =>
    cases b with
    | false => simp [Breadcrumb.authenticate]
    | true =>
      cases wc with
      | error e => simp [Breadcrumb.authenticate]
      | ok u =>
        cases wrecvs with
        | nil => simp [Breadcrumb.authenticate, Breadcrumb.get_message]
        | cons r1 rest1 =>
          cases r1 with
          | error e1 => simp [Breadcrumb.authenticate, Breadcrumb.get_message]
          | ok m1 =>
            cases wsends with
            | nil =>
              simp only [Breadcrumb.authenticate, Breadcrumb.get_message,
                Breadcrumb.send_message]
              split <;> simp
            | cons r2 rest2 =>
              cases r2 with
              | error e2 =>
                simp only [Breadcrumb.authenticate, Breadcrumb.get_message,
                  Breadcrumb.send_message]
                split <;> simp
              | ok u2 =>
                cases rest1 with
                | nil =>
                  simp only [Breadcrumb.authenticate, Breadcrumb.get_message,
                    Breadcrumb.send_message]
                  split <;> simp
                | cons r3 rest3 =>
                  cases r3 with
                  | error e3 =>
                    simp only [Breadcrumb.authenticate, Breadcrumb.get_message,
                      Breadcrumb.send_message]
                    split <;> simp
                  | ok m2 =>
                    simp only [Breadcrumb.authenticate, Breadcrumb.get_message,
                      Breadcrumb.send_message]
                    split
                    · simp
                    · split
                      · simp
                      · split <;> simp

/-- Structural facts about one `get_state` call: the sequence counter
advances by exactly the number of wire events performed; the
`authenticated` flag is never modified; when the probe returns `False` or
the session is not authenticated, the method returns `False` at once with
nothing consumed and no wire traffic; when the precondition holds and the
connection oracle delivers an exception, the method swallows it and
returns `False`; and when the probe raises, the exception propagates. -/
theorem get_state_anatomy (s : Breadcrumb) (w : World) :
    (s.get_state w).2.1.seq_number =
      s.seq_number + (s.get_state w).2.2.2.length ∧
    (s.get_state w).2.1.authenticated = s.authenticated ∧
    (∀ b, w.reachable = .ok b → (b = false ∨ s.authenticated = false) →
      s.get_state w = (.ok .unavailable, s, w, [])) ∧
    (w.reachable = .ok true → s.authenticated = true →
      ∀ e, firstFailure w = some e → (s.get_state w).1 = .ok .unavailable) ∧
    (∀ e, w.reachable = .error e → s.get_state w = (.error e, s, w, [])) := by
  rcases w with ⟨wr, wc, wrecvs, wsends⟩
  cases wr with
  | error e => simp [Breadcrumb.get_state]
  | ok b =>
    cases b with
    | false => simp [Breadcrumb.get_state]
    | true =>
      by_cases ha : s.authenticated
      · cases wsends with
        | nil =>
          simp [Breadcrumb.get_state, Breadcrumb.send_message, ha, firstFailure]
        | cons r2 rest2 =>
          cases r2 with
          | error e2 =>
            simp [Breadcrumb.get_state, Breadcrumb.send_message, ha, firstFailure]
          | ok u2 =>
            cases wrecvs with
            | nil =>
              simp [Breadcrumb.get_state, Breadcrumb.send_message,
                Breadcrumb.get_message, ha, firstFailure]
            | cons r1 rest1 =>
              cases r1 with
              | error e1 =>
                simp [Breadcrumb.get_state, Breadcrumb.send_message,
                  Breadcrumb.get_message, ha, firstFailure]
              | ok m1 =>
                simp [Breadcrumb.get_state, Breadcrumb.send_message,
                  Breadcrumb.get_message, ha, firstFailure]
      · simp [Breadcrumb.get_state, ha]

/-- Structural facts about one `get_state_filter` call: the sequence
counter advances by exactly the number of wire events performed; the
`authenticated` flag is never modified; when the probe returns `False` or
the session is not authenticated, the method returns `False` at once with
nothing consumed and no wire traffic; and when the precondition holds and
the connection oracle delivers an exception, the method re-raises that
exception. -/
theorem get_state_filter_anatomy (s : Breadcrumb) (filters : List String)
    (w : World) :
    (s.get_state_filter filters w).2.1.seq_number =
      s.seq_number + (s.get_state_filter filters w).2.2.2.length ∧
    (s.get_state_filter filters w).2.1.authenticated = s.authenticated ∧
    (∀ b, w.reachable = .ok b → (b = false ∨ s.authenticated = false) →
      s.get_state_filter filters w = (.ok .unavailable, s, w, [])) ∧
    (w.reachable = .ok true → s.authenticated = true →
      ∀ e, firstFailure w = some e →
        (s.get_state_filter filters w).1 = .error e) := by
  rcases w with ⟨wr, wc, wrecvs, wsends⟩
  cases wr with
  | error e => simp [Breadcrumb.get_state_filter]
  | ok b =>
    cases b with
    | false => simp [Breadcrumb.get_state_filter]
    | true =>
      by_cases ha : s.authenticated
      · cases wsends with
        | nil =>
          simp [Breadcrumb.get_state_filter, Breadcrumb.send_message, ha,
            firstFailure]
        | cons r2 rest2 =>
          cases r2 with
          | error e2 =>
            simp [Breadcrumb.get_state_filter, Breadcrumb.send_message, ha,
              firstFailure]
          | ok u2 =>
            cases wrecvs with
            | nil =>
              simp [Breadcrumb.get_state_filter, Breadcrumb.send_message,
                Breadcrumb.get_message, ha, firstFailure]
            | cons r1 rest1 =>
              cases r1 with
              | error e1 =>
                simp [Breadcrumb.get_state_filter, Breadcrumb.send_message,
                  Breadcrumb.get_message, ha, firstFailure]
              | ok m1 =>
                simp [Breadcrumb.get_state_filter, Breadcrumb.send_message,
                  Breadcrumb.get_message, ha, firstFailure]
      · simp [Breadcrumb.get_state_filter, ha]

/-- C9: the sequence counter starts at 0 at construction; `send_message`
and `get_message` advance it by exactly one wire event each (exactly 1 when
the call completes, 0 when it raises); and `authenticate`, `get_state` and
`get_state_filter` change it only through the wire events they perform —
the counter always advances by exactly the length of the operation's wire
trace while it is never reset. -/
theorem seq_counter_discipline (host : Option String) (port : Option Nat)
    (role : String) (pw : List Nat) (acts rls : List (String × Nat))
    (sts : List (Nat × String)) (s : Breadcrumb) (m : BCMessage)
    (sha : List Nat → List Nat) (w : World) (filters : List String) :
    (Breadcrumb.init host port role pw acts rls sts).seq_number = 0 ∧
    (s.send_message m w).2.1.seq_number =
      s.seq_number + (s.send_message m w).2.2.2.length ∧
    (okB (s.send_message m w).1 = true ↔
      (s.send_message m w).2.2.2.length = 1) ∧
    (s.get_message w).2.1.seq_number =
      s.seq_number + (s.get_message w).2.2.2.length ∧
    (okB (s.get_message w).1 = true ↔ (s.get_message w).2.2.2.length = 1) ∧
    (s.authenticate sha w).2.1.seq_number =
      s.seq_number + (s.authenticate sha w).2.2.2.length ∧
    (s.get_state w).2.1.seq_number =
      s.seq_number + (s.get_state w).2.2.2.length ∧
    (s.get_state_filter filters w).2.1.seq_number =
      s.seq_number + (s.get_state_filter filters w).2.2.2.length :=
  ⟨rfl, (send_message_spec s m w).1, (send_message_spec s m w).2.2.2,
    (get_message_spec s w).1, (get_message_spec s w).2.2.2,
    (authenticate_anatomy s sha w).1, (get_state_anatomy s w).1,
    (get_state_filter_anatomy s filters w).1⟩

/-- C7: when the reachability probe reports `False` or the session is not
authenticated, both state queries return the unavailable result at once
with no wire traffic and nothing consumed; when the precondition holds and
the connection delivers an exception, `get_state` swallows it, reports
unavailable and leaves the `authenticated` flag set, while
`get_state_filter` propagates the same exception to the caller. -/
theorem query_error_policies (s : Breadcrumb) (w : World)
    (filters : List String) :
    (∀ b, w.reachable = .ok b → (b = false ∨ s.authenticated = false) →
      s.get_state w = (.ok .unavailable, s, w, []) ∧
      s.get_state_filter filters w = (.ok .unavailable, s, w, [])) ∧
    (w.reachable = .ok true → s.authenticated = true →
      ∀ e, firstFailure w = some e →
        (s.get_state w).1 = .ok .unavailable ∧
        (s.get_state w).2.1.authenticated = true ∧
        (s.get_state_filter filters w).1 = .error e) := by
  constructor
  · intro b hb hfail
    exact ⟨(get_state_anatomy s w).2.2.1 b hb hfail,
      (get_state_filter_anatomy s filters w).2.2.1 b hb hfail⟩
  · intro hr ha e he
    refine ⟨(get_state_anatomy s w).2.2.2.1 hr ha e he, ?_,
      (get_state_filter_anatomy s filters w).2.2.2 hr ha e he⟩
    rw [(get_state_anatomy s w).2.1, ha]

/-- C7 witness: the two policies evaluated on an unreachable host and on a
send failure under an authenticated session. -/
theorem query_error_policies_witness :
    (bcOK.get_state wDown = (.ok .unavailable, bcOK, wDown, []) ∧
     bcOK.get_state_filter ["ipv4"] wDown = (.ok .unavailable, bcOK, wDown, [])) ∧
    ((bcAuthed.get_state wSendFail).1 = .ok .unavailable ∧
     (bcAuthed.get_state wSendFail).2.1.authenticated = true ∧
     (bcAuthed.get_state_filter ["ipv4"] wSendFail).1 = .error (.osError 32)) :=
  ⟨(query_error_policies bcOK wDown ["ipv4"]).1 false rfl (Or.inl rfl),
   (query_error_policies bcAuthed wSendFail ["ipv4"]).2 rfl rfl (.osError 32) rfl⟩

/-- C3 counterexample: an exception raised by the reachability check is not
caught — `authenticate` propagates it to the caller instead of returning
the `authenticated` flag, because the `reachable()` call sits outside the
`try` block. -/
theorem authenticate_propagates_probe_error :
    (bcOK.authenticate (fun _ => [1]) wProbeErr).1 =
      .error (.valueError "ping argument of wrong type") ∧
    okB (bcOK.authenticate (fun _ => [1]) wProbeErr).1 = false := by
  constructor <;> rfl

/-- C3 amended: whenever the reachability probe itself returns (with either
truth value), every exception raised at any later step of the handshake —
socket/TLS setup, receiving or decoding either frame, hashing, role
lookup, status lookup — is caught and `authenticate` returns the current
value of the `authenticated` flag; only an exception raised by the
reachability check itself propagates. -/
theorem authenticate_swallows_inner_errors (s : Breadcrumb)
    (sha : List Nat → List Nat) (w : World) (b : Bool)
    (h : w.reachable = .ok b) :
    (s.authenticate sha w).1 = .ok (s.authenticate sha w).2.1.authenticated :=
  (authenticate_anatomy s sha w).2.1 b h

/-- C3 witness: a handshake whose login send raises a socket error still
returns the `authenticated` flag rather than raising. -/
theorem authenticate_swallows_inner_errors_witness :
    (bcOK.authenticate (fun _ => [1]) wSendFail).1 =
      .ok (bcOK.authenticate (fun _ => [1]) wSendFail).2.1.authenticated :=
  authenticate_swallows_inner_errors bcOK (fun _ => [1]) wSendFail true rfl

/-- C2 counterexample: a session whose role name is present in the role map
but whose password contains the code point 960 (`π`) makes
`prepare_login_message` fail with a `UnicodeEncodeError` — so the method
does not fail exactly when the role name is missing from the role map, and
it does not build a message for every password string. -/
theorem login_fails_despite_known_role :
    bcPi.roles.lookup bcPi.role = some 7 ∧
    bcPi.prepare_login_message (fun _ => [1]) {} = .error .unicodeEncodeError := by
  constructor <;> rfl

/-- C2 amended: for every session whose password is Latin-1-encodable (all
code points below 256) and every challenge, `prepare_login_message` builds
a message whose `sequenceNumber` is the session's current counter, whose
`auth.action` is the LOGIN code, whose `auth.challengeOrResponse` is the
SHA-384 digest of the Latin-1 encoding of the password concatenated with
the challenge bytes decoded as Latin-1, and whose `auth.compressionMask`
is 2; it fails with a key-lookup error exactly when the role name is not in
the role map. -/
theorem prepare_login_message_spec (s : Breadcrumb)
    (sha384 : List Nat → List Nat) (init_message : BCMessage) (act : Nat)
    (hact : s.actions.lookup "LOGIN" = some act)
    (hpw : ∀ c ∈ s.password, c < 256)
    (hch : ∀ c ∈ init_message.auth.challengeOrResponse, c < 256) :
    (s.roles.lookup s.role = none →
      s.prepare_login_message sha384 init_message = .error .keyError) ∧
    (∀ rl, s.roles.lookup s.role = some rl →
      ∃ m, s.prepare_login_message sha384 init_message = .ok m ∧
        m.sequenceNumber = s.seq_number ∧ m.auth.action = act ∧
        m.auth.role = rl ∧
        m.auth.challengeOrResponse =
          sha384 (s.password ++ init_message.auth.challengeOrResponse) ∧
        m.auth.compressionMask = 2) := by
  have henc : latin1Encode (s.password ++ init_message.auth.challengeOrResponse) =
      some (s.password ++ init_message.auth.challengeOrResponse) := by
    unfold latin1Encode
    rw [if_pos]
    simp only [List.all_append, Bool.and_eq_true, List.all_eq_true,
      decide_eq_true_eq]
    exact ⟨hpw, hch⟩
  constructor
  · intro hrole
    simp [Breadcrumb.prepare_login_message, hact, hrole]
  · intro rl hrole
    refine ⟨{ sequenceNumber := s.seq_number
              auth := { action := act, role := rl
                        challengeOrResponse :=
                          sha384 (s.password ++
                            init_message.auth.challengeOrResponse)
                        compressionMask := 2 } }, ?_, rfl, rfl, rfl, rfl, rfl⟩
    simp [Breadcrumb.prepare_login_message, Breadcrumb.build_message, hact,
      hrole, henc]

/-- C2 witness: the login message built by `bcOK` for an empty challenge. -/
theorem prepare_login_message_spec_witness :
    ∃ m, bcOK.prepare_login_message (fun _ => [1, 2]) {} = .ok m ∧
      m.sequenceNumber = bcOK.seq_number ∧ m.auth.action = 4 ∧
      m.auth.role = 7 ∧
      m.auth.challengeOrResponse =
        (fun _ : List Nat => [1, 2])
          (bcOK.password ++ ({} : BCMessage).auth.challengeOrResponse) ∧
      m.auth.compressionMask = 2 :=
  (prepare_login_message_spec bcOK (fun _ => [1, 2]) {} 4 (by decide)
    (by decide) (by decide)).2 7 (by decide)

/-- C5 (code-bug evaluation): with filters `["ipv4", "wireless"]`,
`get_state_filter` sends a message whose `stateFilterPath` holds one single
entry — the whole filter list passed to one `append` call — rather than the
two string entries the specification requires. -/
theorem state_filter_appends_whole_list :
    (bcAuthed.get_state_filter ["ipv4", "wireless"] wUp).2.2.2 =
      [Ev.sent { sequenceNumber := 0,
                 stateFilterPath := [RVal.lst ["ipv4", "wireless"]] },
       Ev.received { state := 3 }] ∧
    [RVal.lst ["ipv4", "wireless"]] ≠
      (["ipv4", "wireless"].map RVal.str) := by
  constructor
  · rfl
  · decide
